import Mathlib

/-!
Shallow embedding of the ingestion core of the SI201 final-project pipeline
(`database_setup.py`, `gather_colleges.py`, `gather_universities.py`,
`gather_weather.py`).

Modelling conventions:
* SQLite rows are Lean structures; a table is the list of its rows in
  insertion (scan) order, which is the order a plain `SELECT` without
  `ORDER BY` returns them in.
* A `sqlite3` connection is a pair of database states: `durable` (what a
  reader after a crash would see) and `session` (the state including the
  current transaction's uncommitted writes).  `cur.execute` of an INSERT
  updates `session` only; `conn.commit()` copies `session` into `durable`.
  SELECTs issued on the same connection read `session`.
* Numeric payload fields (temperatures, tuition, rates, coordinates) are
  carried opaquely as `Int`: no claim computes with their values, the code
  only moves them between the API records and the rows, and `NULL` is
  `Option.none`.
* An HTTP interaction is an abstract outcome: either the `requests` call
  raised (network error / timeout), or a response arrived with a status
  code and a body that either parses as JSON of the expected shape
  (`some`) or fails to parse (`none`, making `response.json()` raise).
* A Python exception escaping a function is `Except.error`; functions
  whose source cannot raise are pure.
-/

/-- Per-run insertion quota, `MAX_INSERT_PER_RUN = 25` in all three
gatherer scripts. -/
def MAX_INSERT_PER_RUN : Nat := 25

/-! ## Table rows -/

/-- Row of the `countries` lookup table (`database_setup.py`, DDL lines 7-13):
`id INTEGER PRIMARY KEY AUTOINCREMENT, name TEXT UNIQUE NOT NULL, alpha_two_code TEXT`. -/
structure CountryRow where
  id : Nat
  name : String
  alpha_two_code : Option String
deriving Repr, DecidableEq

/-- Row of the `state_provinces` lookup table (DDL lines 15-22). -/
structure StateProvinceRow where
  id : Nat
  name : String
  country_id : Option Nat
deriving Repr, DecidableEq

/-- Row of the `cities` lookup table (DDL lines 24-29). -/
structure CityRow where
  id : Nat
  name : String
deriving Repr, DecidableEq

/-- Row of the denormalized `us_colleges` table that `gather_colleges.py`
inserts into (INSERT at lines 126-131).  Modelled from the spec: the DDL of
this table is not among the source files (only the normalized `colleges`
variant is), and the spec gives its key: "College: primary key = externally
supplied stable identifier (from the source API)". -/
structure UsCollegeRow where
  id : Int
  name : String
  city : Option String
  state : Option String
  zip : Option String
  ownership : Option Int
  predominant_degree : Option Int
  lat : Option Int
  lon : Option Int
  student_size : Option Int
deriving Repr, DecidableEq

/-- Row of the `college_financials` table (INSERT at
`gather_colleges.py` lines 134-139).  Modelled from the spec: the DDL is
not among the source files; the spec says the financial row shares the
College primary key ("two related tables in the denormalized variant share
the primary key"). -/
structure CollegeFinancialsRow where
  id : Int
  in_state_tuition : Option Int
  out_state_tuition : Option Int
  academic_year_cost : Option Int
  completion_rate : Option Int
  earnings_10yr : Option Int
deriving Repr, DecidableEq

/-- Row of `daily_weather` (DDL lines 53-64): synthetic id, college
reference, date, metrics, and `UNIQUE(college_id, date)`. -/
structure DailyWeatherRow where
  id : Nat
  college_id : Int
  date : String
  temp_max : Option Int
  temp_min : Option Int
  precip_sum : Option Int
deriving Repr, DecidableEq

/-- Row of the `universities_world` table as `gather_universities.py`
inserts it (INSERT at lines 103-107: name, country, alpha_two_code,
state_province, web_page, domain, plus a synthetic autoincrement id).
Modelled from the spec where the DDL is missing: "UniversityWorld: natural
key = name (global uniqueness assumed)", so `name` carries a UNIQUE
constraint (the code's `except sqlite3.IntegrityError` at line 109 relies
on it). -/
structure UniversityRow where
  id : Nat
  name : String
  country : Option String
  alpha_two_code : Option String
  state_province : Option String
  web_page : Option String
  domain : Option String
deriving Repr, DecidableEq

/-- The whole database: one list per table, in insertion order. -/
structure Db where
  us_colleges : List UsCollegeRow
  college_financials : List CollegeFinancialsRow
  daily_weather : List DailyWeatherRow
  universities_world : List UniversityRow
  countries : List CountryRow
  state_provinces : List StateProvinceRow
  cities : List CityRow
deriving Repr, DecidableEq

/-- The empty database, as `init_db` leaves a fresh file. -/
def Db.empty : Db := ⟨[], [], [], [], [], [], []⟩

/-- A `sqlite3` connection: `durable` is the committed state, `session`
additionally contains the current transaction's uncommitted writes. -/
structure Conn where
  durable : Db
  session : Db
deriving Repr, DecidableEq

/-- A connection freshly opened on database `db` (no pending writes). -/
def Conn.mk0 (db : Db) : Conn := ⟨db, db⟩

/-- The effect of `conn.commit()`: the session state becomes durable. -/
def commit_conn (c : Conn) : Conn := ⟨c.session, c.session⟩

/-- Python exceptions that the embedded code can raise or catch. -/
inductive PyExn where
  /-- any `requests` failure before a response: connection error, timeout,
  `ChunkedEncodingError`, ... (all subclasses of `RequestException`). -/
  | requestException
  /-- `response.json()` failed to parse the body (a `ValueError`). -/
  | jsonDecodeError
  /-- `sqlite3.IntegrityError`: a uniqueness constraint was violated by an
  INSERT. -/
  | integrityError
deriving Repr, DecidableEq

/-- Fresh AUTOINCREMENT id for a table whose used ids are `ids`: sqlite
hands out one more than the largest id ever used (no row is ever deleted
by this code, so that is the current maximum). -/
def nextId (ids : List Nat) : Nat := ids.foldr max 0 + 1

/-! ## Get-or-create lookups (`database_setup.py` lines 87-134) -/

/-- Embeds `get_or_create_country` (lines 87-101): falsy name returns
`None`; otherwise SELECT by exact name, returning the existing id, else
INSERT and commit, returning `lastrowid`. -/
def get_or_create_country (conn : Conn) (country_name : Option String)
    (alpha_two_code : Option String) : Option Nat × Conn :=
  match country_name with
  | none => (none, conn)
  | some n =>
    if n = "" then (none, conn)
    else
      match conn.session.countries.find? (fun r => r.name = n) with
      | some r => (some r.id, conn)
      | none =>
        let newId := nextId (conn.session.countries.map (·.id))
        let row : CountryRow := ⟨newId, n, alpha_two_code⟩
        let db' := { conn.session with countries := conn.session.countries ++ [row] }
        (some newId, commit_conn { conn with session := db' })

/-- Embeds `get_or_create_state_province` (lines 104-118). -/
def get_or_create_state_province (conn : Conn) (state_name : Option String)
    (country_id : Option Nat) : Option Nat × Conn :=
  match state_name with
  | none => (none, conn)
  | some n =>
    if n = "" then (none, conn)
    else
      match conn.session.state_provinces.find? (fun r => r.name = n) with
      | some r => (some r.id, conn)
      | none =>
        let newId := nextId (conn.session.state_provinces.map (·.id))
        let row : StateProvinceRow := ⟨newId, n, country_id⟩
        let db' := { conn.session with state_provinces := conn.session.state_provinces ++ [row] }
        (some newId, commit_conn { conn with session := db' })

/-- Embeds `get_or_create_city` (lines 121-134). -/
def get_or_create_city (conn : Conn) (city_name : Option String) :
    Option Nat × Conn :=
  match city_name with
  | none => (none, conn)
  | some n =>
    if n = "" then (none, conn)
    else
      match conn.session.cities.find? (fun r => r.name = n) with
      | some r => (some r.id, conn)
      | none =>
        let newId := nextId (conn.session.cities.map (·.id))
        let row : CityRow := ⟨newId, n⟩
        let db' := { conn.session with cities := conn.session.cities ++ [row] }
        (some newId, commit_conn { conn with session := db' })

/-! ## HTTP outcomes and the three fetchers -/

/-- Outcome of one `requests.get` call with body type `β`. -/
inductive ReqOutcome (β : Type) where
  /-- the call itself raised (connection error, timeout, chunked-encoding
  error, ...). -/
  | networkError
  /-- a response arrived; `body = none` means the body is not valid JSON
  of the expected shape, so `response.json()` raises. -/
  | response (status : Nat) (body : Option β)
deriving Repr, DecidableEq

/-- One college record as returned by the College Scorecard API: a flat
dict keyed by dotted field paths (`gather_colleges.py` lines 33-49); every
field may be absent or null. -/
structure CollegeRecord where
  id : Option Int
  school_name : Option String
  school_city : Option String
  school_state : Option String
  school_zip : Option String
  school_ownership : Option Int
  predominant_degree : Option Int
  location_lat : Option Int
  location_lon : Option Int
  student_size : Option Int
  in_state_tuition : Option Int
  out_state_tuition : Option Int
  academic_year_cost : Option Int
  completion_rate : Option Int
  earnings_10yr : Option Int
deriving Repr, DecidableEq

/-- Parsed JSON body of a College Scorecard response: the code reads
`data.get("results", [])`, so the `results` key may be absent. -/
structure ScorecardBody where
  results : Option (List CollegeRecord)
deriving Repr, DecidableEq

/-- Embeds `fetch_college_page` (`gather_colleges.py` lines 12-70).  The
source wraps nothing in try/except: `requests.get` (line 59) and
`response.json()` (line 66) raise past the function; only a non-200 status
is checked and degraded to `[]` (lines 61-64). -/
def fetch_college_page (resp : ReqOutcome ScorecardBody) :
    Except PyExn (List CollegeRecord) :=
  match resp with
  | .networkError => .error .requestException
  | .response status body =>
    if status ≠ 200 then .ok []
    else
      match body with
      | none => .error .jsonDecodeError
      | some data => .ok (data.results.getD [])

/-- One university record from the Hipolabs API
(`gather_universities.py` lines 80-99). -/
structure UniversityRecord where
  name : Option String
  country : Option String
  alpha_two_code : Option String
  state_province : Option String
  web_pages : List String
  domains : List String
deriving Repr, DecidableEq

/-- Whether `response.raise_for_status()` raises: true exactly for 4xx
and 5xx status codes. -/
def raise_for_status_raises (status : Nat) : Bool :=
  400 ≤ status && status < 600

/-- Embeds `fetch_universities_by_country` (`gather_universities.py`
lines 25-58): `requests.get` failures (`ChunkedEncodingError` and every
other `RequestException`, including the `HTTPError` from
`raise_for_status` on a 4xx/5xx status) are caught and give `[]`
(lines 42-49); a JSON parse failure is caught and gives `[]`
(lines 51-55); otherwise the parsed list is returned. -/
def fetch_universities_by_country (resp : ReqOutcome (List UniversityRecord)) :
    List UniversityRecord :=
  match resp with
  | .networkError => []
  | .response status body =>
    if raise_for_status_raises status then []
    else
      match body with
      | none => []
      | some universities => universities

/-- The `daily` block of an Open-Meteo response: parallel arrays, one
entry per date (`gather_weather.py` lines 62-65; each array defaults to
`[]` when its key is absent). -/
structure DailyBlock where
  time : List String
  temperature_2m_max : List Int
  temperature_2m_min : List Int
  precipitation_sum : List Int
deriving Repr, DecidableEq

/-- Parsed JSON body of an Open-Meteo response; `data.get("daily", {})`
defaults to an empty dict, i.e. all-empty arrays. -/
structure OpenMeteoBody where
  daily : Option DailyBlock
deriving Repr, DecidableEq

/-- One day of weather as the fetcher hands it to the storer
(`gather_weather.py` lines 70-75); each field may be absent/null. -/
structure WeatherRecord where
  date : Option String
  temp_max : Option Int
  temp_min : Option Int
  precip_sum : Option Int
deriving Repr, DecidableEq

/-- Embeds the reshaping loop of `fetch_weather_for_college`
(lines 68-75): one record per entry of `time`; each metric contributes
its entry at index `i` when it has one (`xs[i] if i < len(xs) else
None`), i.e. exactly `List.get?`. -/
def reshape_daily (d : DailyBlock) : List WeatherRecord :=
  (List.range d.time.length).map (fun i =>
    { date := d.time.get? i
      temp_max := d.temperature_2m_max.get? i
      temp_min := d.temperature_2m_min.get? i
      precip_sum := d.precipitation_sum.get? i })

/-- Embeds `fetch_weather_for_college` (`gather_weather.py` lines 16-81):
everything after the request sits in a `try` whose
`except Exception` returns `[]`, a non-200 status returns `[]`, and a
200 response is reshaped by the loop above. -/
def fetch_weather_for_college (resp : ReqOutcome OpenMeteoBody) :
    List WeatherRecord :=
  match resp with
  | .networkError => []
  | .response status body =>
    if status ≠ 200 then []
    else
      match body with
      | none => []
      | some data => reshape_daily (data.daily.getD ⟨[], [], [], []⟩)

/-! ## Natural-key existence checks and INSERTs

An INSERT is modelled as appending the row after checking the table's
uniqueness constraints; when a constraint is violated the statement
raises `sqlite3.IntegrityError` (`Except.error .integrityError`). -/

/-- The pre-check SELECT of `store_college_page` (line 103):
does `us_colleges` contain a row with this id? -/
def usCollegesHasId (db : Db) (cid : Int) : Bool :=
  db.us_colleges.any (fun r => r.id = cid)

/-- Does `college_financials` contain a row with this id? -/
def financialsHasId (db : Db) (cid : Int) : Bool :=
  db.college_financials.any (fun r => r.id = cid)

/-- The pre-check SELECT of `store_universities` (line 85):
does `universities_world` contain a row with this name? -/
def universitiesHasName (db : Db) (n : String) : Bool :=
  db.universities_world.any (fun r => r.name = n)

/-- The pre-check SELECT of `store_weather` (lines 118-121):
does `daily_weather` contain a row with this (college_id, date)? -/
def weatherHasKey (db : Db) (cid : Int) (date : String) : Bool :=
  db.daily_weather.any (fun r => r.college_id = cid && r.date = date)

/-- INSERT INTO us_colleges: the primary key on `id` rejects a duplicate. -/
def insert_us_college (db : Db) (row : UsCollegeRow) : Except PyExn Db :=
  if usCollegesHasId db row.id then .error .integrityError
  else .ok { db with us_colleges := db.us_colleges ++ [row] }

/-- INSERT INTO college_financials: the primary key on `id` rejects a
duplicate. -/
def insert_college_financials (db : Db) (row : CollegeFinancialsRow) :
    Except PyExn Db :=
  if financialsHasId db row.id then .error .integrityError
  else .ok { db with college_financials := db.college_financials ++ [row] }

/-- INSERT INTO universities_world: the UNIQUE constraint on `name`
rejects a duplicate; the synthetic id autoincrements. -/
def insert_university (db : Db) (name : String) (country alpha_two_code
    state_province web_page domain : Option String) : Except PyExn Db :=
  if universitiesHasName db name then .error .integrityError
  else
    let row : UniversityRow :=
      ⟨nextId (db.universities_world.map (·.id)), name, country,
        alpha_two_code, state_province, web_page, domain⟩
    .ok { db with universities_world := db.universities_world ++ [row] }

/-- INSERT INTO daily_weather: `UNIQUE(college_id, date)` rejects a
duplicate; the synthetic id autoincrements. -/
def insert_daily_weather (db : Db) (cid : Int) (date : String)
    (temp_max temp_min precip_sum : Option Int) : Except PyExn Db :=
  if weatherHasKey db cid date then .error .integrityError
  else
    let row : DailyWeatherRow :=
      ⟨nextId (db.daily_weather.map (·.id)), cid, date, temp_max, temp_min,
        precip_sum⟩
    .ok { db with daily_weather := db.daily_weather ++ [row] }

/-! ## store_college_page (`gather_colleges.py` lines 73-145) -/

/-- The us_colleges row built from a record (lines 109-131). -/
def collegeRowOf (college : CollegeRecord) (college_id : Int) : UsCollegeRow :=
  { id := college_id
    name := college.school_name.getD "Unknown"
    city := college.school_city
    state := college.school_state
    zip := college.school_zip
    ownership := college.school_ownership
    predominant_degree := college.predominant_degree
    lat := college.location_lat
    lon := college.location_lon
    student_size := college.student_size }

/-- The college_financials row built from a record (lines 119-139). -/
def financialsRowOf (college : CollegeRecord) (college_id : Int) :
    CollegeFinancialsRow :=
  { id := college_id
    in_state_tuition := college.in_state_tuition
    out_state_tuition := college.out_state_tuition
    academic_year_cost := college.academic_year_cost
    completion_rate := college.completion_rate
    earnings_10yr := college.earnings_10yr }

/-- The per-record loop of `store_college_page` (lines 92-141): stop at
the quota; skip a record without an id; skip when the id already exists
(pre-check); otherwise run the two INSERTs — which are NOT wrapped in
try/except, so an `IntegrityError` propagates — and increment the count. -/
def store_college_page_loop (conn : Conn) (inserted_count : Nat) :
    List CollegeRecord → Except PyExn (Conn × Nat)
  | [] => .ok (conn, inserted_count)
  | college :: rest =>
    if MAX_INSERT_PER_RUN ≤ inserted_count then .ok (conn, inserted_count)
    else
      match college.id with
      | none => store_college_page_loop conn inserted_count rest
      | some college_id =>
        if usCollegesHasId conn.session college_id then
          store_college_page_loop conn inserted_count rest
        else
          match insert_us_college conn.session (collegeRowOf college college_id) with
          | .error e => .error e
          | .ok s1 =>
            match insert_college_financials s1 (financialsRowOf college college_id) with
            | .error e => .error e
            | .ok s2 =>
              store_college_page_loop { conn with session := s2 }
                (inserted_count + 1) rest

/-- Embeds `store_college_page` (lines 73-145): run the loop from count 0,
then `conn.commit()` (line 143) and return the count. -/
def store_college_page (conn : Conn) (college_list : List CollegeRecord) :
    Except PyExn (Conn × Nat) :=
  match store_college_page_loop conn 0 college_list with
  | .error e => .error e
  | .ok (c, n) => .ok (commit_conn c, n)

/-- The state after the loop of `store_college_page` has processed the
first `k` records of the batch and the run is then interrupted: the
commit on line 143 has not run. -/
def store_college_page_interrupted (conn : Conn) (college_list : List CollegeRecord)
    (k : Nat) : Except PyExn (Conn × Nat) :=
  store_college_page_loop conn 0 (college_list.take k)

/-! ## store_universities (`gather_universities.py` lines 61-115) -/

/-- The natural key of a university record after the falsiness test of
lines 80-82 (`if not name: continue`): `none` when the name is absent or
the empty string. -/
def uniKey (uni : UniversityRecord) : Option String :=
  match uni.name with
  | none => none
  | some n => if n = "" then none else some n

/-- The per-record loop of `store_universities` (lines 75-111): stop at
the quota; skip a falsy name; skip when the name already exists
(pre-check); otherwise INSERT inside `try`, where an `IntegrityError` is
caught and the record skipped without incrementing (lines 102-111). -/
def store_universities_loop (conn : Conn) (inserted_count : Nat) :
    List UniversityRecord → Conn × Nat
  | [] => (conn, inserted_count)
  | uni :: rest =>
    if MAX_INSERT_PER_RUN ≤ inserted_count then (conn, inserted_count)
    else
      match uniKey uni with
      | none => store_universities_loop conn inserted_count rest
      | some name =>
        if universitiesHasName conn.session name then
          store_universities_loop conn inserted_count rest
        else
          match insert_university conn.session name uni.country
            uni.alpha_two_code uni.state_province uni.web_pages.head?
            uni.domains.head? with
          | .error _ => store_universities_loop conn inserted_count rest
          | .ok s1 =>
            store_universities_loop { conn with session := s1 }
              (inserted_count + 1) rest

/-- Embeds `store_universities` (lines 61-115): run the loop from count 0,
then `conn.commit()` (line 113) and return the count. -/
def store_universities (conn : Conn) (uni_list : List UniversityRecord) :
    Conn × Nat :=
  let r := store_universities_loop conn 0 uni_list
  (commit_conn r.1, r.2)

/-- The state after the loop of `store_universities` has processed the
first `k` records and the run is then interrupted before the commit on
line 113. -/
def store_universities_interrupted (conn : Conn) (uni_list : List UniversityRecord)
    (k : Nat) : Conn × Nat :=
  store_universities_loop conn 0 (uni_list.take k)

/-! ## store_weather (`gather_weather.py` lines 84-140) -/

/-- The date key of a weather record after the falsiness test of
lines 113-115 (`if not date: continue`). -/
def weatherKey (record : WeatherRecord) : Option String :=
  match record.date with
  | none => none
  | some d => if d = "" then none else some d

/-- The per-record loop of `store_weather` (lines 108-137): stop at the
quota; skip a falsy date; skip when (college_id, date) already exists
(pre-check); otherwise INSERT inside `try`, where an `IntegrityError` is
caught and the record skipped without incrementing (lines 128-137). -/
def store_weather_loop (conn : Conn) (college_id : Int) (inserted_count : Nat) :
    List WeatherRecord → Conn × Nat
  | [] => (conn, inserted_count)
  | record :: rest =>
    if MAX_INSERT_PER_RUN ≤ inserted_count then (conn, inserted_count)
    else
      match weatherKey record with
      | none => store_weather_loop conn college_id inserted_count rest
      | some date =>
        if weatherHasKey conn.session college_id date then
          store_weather_loop conn college_id inserted_count rest
        else
          match insert_daily_weather conn.session college_id date
            record.temp_max record.temp_min record.precip_sum with
          | .error _ => store_weather_loop conn college_id inserted_count rest
          | .ok s1 =>
            store_weather_loop { conn with session := s1 } college_id
              (inserted_count + 1) rest

/-- Embeds `store_weather` (lines 84-140): run the loop from count 0,
then `conn.commit()` (line 139) and return the count. -/
def store_weather (conn : Conn) (college_id : Int)
    (weather_list : List WeatherRecord) : Conn × Nat :=
  let r := store_weather_loop conn college_id 0 weather_list
  (commit_conn r.1, r.2)

/-- The state after the loop of `store_weather` has processed the first
`k` records and the run is then interrupted before the commit on
line 139. -/
def store_weather_interrupted (conn : Conn) (college_id : Int)
    (weather_list : List WeatherRecord) (k : Nat) : Conn × Nat :=
  store_weather_loop conn college_id 0 (weather_list.take k)

/-! ## Progress estimators -/

/-- Embeds `get_next_page_to_fetch` (`gather_colleges.py` lines 148-158):
`SELECT COUNT(*) FROM us_colleges` on the connection, floor-divided
by 100. -/
def get_next_page_to_fetch (conn : Conn) : Nat :=
  conn.session.us_colleges.length / 100

/-- Number of `daily_weather` rows referencing a college. -/
def weatherCountFor (db : Db) (cid : Int) : Nat :=
  (db.daily_weather.filter (fun w => w.college_id = cid)).length

/-- Embeds `get_colleges_needing_weather` (`gather_weather.py`
lines 143-169): colleges with non-null lat and lon and no row in
`daily_weather`, in table scan order, `LIMIT limit`. -/
def get_colleges_needing_weather (conn : Conn) (limit : Nat) :
    List UsCollegeRow :=
  ((conn.session.us_colleges.filter (fun c =>
      c.lat.isSome && c.lon.isSome &&
      !(conn.session.daily_weather.any (fun w => w.college_id = c.id)))).take
    limit)

/-- Embeds `get_colleges_with_partial_weather` (lines 172-197): colleges
with non-null lat and lon, grouped with their `daily_weather` count,
`HAVING weather_count > 0 AND weather_count < 30`, no ORDER BY (table
scan order), `LIMIT limit`.  Returns (row, weather_count) pairs. -/
def get_colleges_with_partial_weather (conn : Conn) (limit : Nat) :
    List (UsCollegeRow × Nat) :=
  (((conn.session.us_colleges.filter (fun c =>
        c.lat.isSome && c.lon.isSome)).map
      (fun c => (c, weatherCountFor conn.session c.id))).filter
    (fun p => 0 < p.2 && p.2 < 30)).take limit

/-- Embeds the candidate selection of `main` in `gather_weather.py`
(lines 260-273): the zero-weather colleges when there are any, otherwise
the partial-weather colleges (projected to drop the count, line 268). -/
def select_weather_candidates (conn : Conn) : List UsCollegeRow :=
  let colleges := get_colleges_needing_weather conn 5
  if colleges.isEmpty then
    (get_colleges_with_partial_weather conn 5).map (·.1)
  else colleges

/-! ## Helper lemmas -/

/-! ## Concrete rows, records and stores used in witnesses and counterexamples -/

/-- A sample college row used to build concrete stores in witnesses. -/
def sampleCollegeRow : UsCollegeRow :=
  ⟨1, "Sample", none, none, none, none, none, some 42, some (-83), none⟩

/-- A university record whose natural key is defined and not yet present
in the store (a "novel natural key"). -/
def novelUniB (db : Db) (r : UniversityRecord) : Bool :=
  match uniKey r with
  | none => false
  | some n => !(universitiesHasName db n)

/-- A college record whose external id is present and not yet present in
either primary table. -/
def novelCollegeB (db : Db) (c : CollegeRecord) : Bool :=
  match c.id with
  | none => false
  | some i => !(usCollegesHasId db i) && !(financialsHasId db i)

/-- A weather record whose date is defined and whose (college, date) key
is not yet present in the store. -/
def novelWeatherB (db : Db) (cid : Int) (r : WeatherRecord) : Bool :=
  match weatherKey r with
  | none => false
  | some d => !(weatherHasKey db cid d)

/-- A college record carrying no external id. -/
def recNoId : CollegeRecord :=
  ⟨none, some "NoId College", none, none, none, none, none, none, none, none,
    none, none, none, none, none⟩

/-- A university record carrying no name. -/
def recNoName : UniversityRecord := ⟨none, some "United States", none, none, [], []⟩

/-- A weather record carrying no date. -/
def recNoDate : WeatherRecord := ⟨none, some 1, some 2, some 3⟩

/-- A store whose `college_financials` table holds id 7 while `us_colleges`
does not (so the pre-check passes and the second INSERT violates the key). -/
def dupFinancialsConn : Conn :=
  Conn.mk0 { Db.empty with college_financials := [⟨7, none, none, none, none, none⟩] }

/-- A college record with external id 7. -/
def collegeRec7 : CollegeRecord :=
  ⟨some 7, some "Dup College", none, none, none, none, none, none, none, none,
    none, none, none, none, none⟩

/-- A simple novel university record. -/
def uniRecA : UniversityRecord := ⟨some "A", none, none, none, [], []⟩

/-- A university record naming lookup entities (country France). -/
def uniRecMIT : UniversityRecord :=
  ⟨some "MIT", some "France", some "FR", none, [], []⟩

/-- A connection whose store already holds university "A". -/
def connWithUniA : Conn :=
  Conn.mk0 { Db.empty with universities_world :=
    [⟨1, "A", none, none, none, none, none⟩] }

/-- A connection whose store already holds weather for college 1 on date "d". -/
def connWithWeatherD : Conn :=
  Conn.mk0 { Db.empty with daily_weather := [⟨1, 1, "d", none, none, none⟩] }

/-- A weather record for date "d". -/
def weatherRecD : WeatherRecord := ⟨some "d", some 5, some 1, some 0⟩

/-- 25 college records with distinct novel external ids 0..24. -/
def collegeBatch25 : List CollegeRecord :=
  (List.range MAX_INSERT_PER_RUN).map (fun j =>
    ⟨some (Int.ofNat j), some "College", none, none, none, none, none, none,
      none, none, none, none, none, none, none⟩)

/-- 25 university records with distinct novel names. -/
def uniBatch25 : List UniversityRecord :=
  (List.range MAX_INSERT_PER_RUN).map (fun j =>
    ⟨some (String.mk (List.replicate (j + 1) 'u')), none, none, none, [], []⟩)

/-- 25 weather records with distinct novel dates. -/
def weatherBatch25 : List WeatherRecord :=
  (List.range MAX_INSERT_PER_RUN).map (fun j =>
    ⟨some (String.mk (List.replicate (j + 1) 'd')), some 1, some 0, some 0⟩)

/-- Colleges used in the C6 stores. -/
def collegeA : UsCollegeRow :=
  ⟨1, "A", none, none, none, none, none, some 10, some 20, none⟩

def collegeB : UsCollegeRow :=
  ⟨2, "B", none, none, none, none, none, some 30, some 40, none⟩

/-- A college whose latitude is NULL. -/
def collegeNoCoord : UsCollegeRow :=
  ⟨3, "N", none, none, none, none, none, none, some 50, none⟩

/-- k weather rows for one college, on k distinct dates. -/
def weatherRowsFor (cid : Int) (k : Nat) : List DailyWeatherRow :=
  (List.range k).map (fun j =>
    ⟨j + 1, cid, String.mk (List.replicate (j + 1) 'x'), none, none, none⟩)

/-- Store: college A has coordinates and 27 weather rows. -/
def connC6a : Conn :=
  Conn.mk0 { Db.empty with
    us_colleges := [collegeA]
    daily_weather := weatherRowsFor 1 27 }

/-- Store: colleges A and B, with 5 and 3 weather rows respectively. -/
def connC6b : Conn :=
  Conn.mk0 { Db.empty with
    us_colleges := [collegeA, collegeB]
    daily_weather := weatherRowsFor 1 5 ++ weatherRowsFor 2 3 }

/-- Store: one college without coordinates, one with coordinates and no
weather rows. -/
def connC6w : Conn :=
  Conn.mk0 { Db.empty with us_colleges := [collegeNoCoord, collegeB] }

theorem universitiesHasName_push (db : Db) (row : UniversityRow) (n : String) :
    universitiesHasName { db with universities_world := db.universities_world ++ [row] } n
      = (universitiesHasName db n || decide (row.name = n)) := by
  simp [universitiesHasName]

theorem usCollegesHasId_push (db : Db) (row : UsCollegeRow) (i : Int) :
    usCollegesHasId { db with us_colleges := db.us_colleges ++ [row] } i
      = (usCollegesHasId db i || decide (row.id = i)) := by
  simp [usCollegesHasId]

theorem financialsHasId_push (db : Db) (row : CollegeFinancialsRow) (i : Int) :
    financialsHasId { db with college_financials := db.college_financials ++ [row] } i
      = (financialsHasId db i || decide (row.id = i)) := by
  simp [financialsHasId]

theorem weatherHasKey_push (db : Db) (row : DailyWeatherRow) (cid : Int) (d : String) :
    weatherHasKey { db with daily_weather := db.daily_weather ++ [row] } cid d
      = (weatherHasKey db cid d || (decide (row.college_id = cid) && decide (row.date = d))) := by
  simp [weatherHasKey]

theorem insert_university_eq (db : Db) (name : String) (c a sp w d : Option String)
    (h : universitiesHasName db name = false) :
    insert_university db name c a sp w d = .ok { db with universities_world :=
      db.universities_world ++
        [⟨nextId (db.universities_world.map (·.id)), name, c, a, sp, w, d⟩] } := by
  simp [insert_university, h]

theorem insert_us_college_eq (db : Db) (row : UsCollegeRow)
    (h : usCollegesHasId db row.id = false) :
    insert_us_college db row = .ok { db with us_colleges := db.us_colleges ++ [row] } := by
  simp [insert_us_college, h]

theorem insert_college_financials_eq (db : Db) (row : CollegeFinancialsRow)
    (h : financialsHasId db row.id = false) :
    insert_college_financials db row
      = .ok { db with college_financials := db.college_financials ++ [row] } := by
  simp [insert_college_financials, h]

theorem insert_daily_weather_eq (db : Db) (cid : Int) (date : String)
    (tmax tmin prec : Option Int) (h : weatherHasKey db cid date = false) :
    insert_daily_weather db cid date tmax tmin prec = .ok { db with daily_weather :=
      db.daily_weather ++
        [⟨nextId (db.daily_weather.map (·.id)), cid, date, tmax, tmin, prec⟩] } := by
  simp [insert_daily_weather, h]

/-! ## C9: college progress estimator -/

/-- C9: `get_next_page_to_fetch` returns the floor of the current
`us_colleges` row count divided by the page size 100; in particular, for a
store holding `100 * k` college rows it returns exactly `k`. -/
theorem claim_C9_next_page (conn : Conn) :
    get_next_page_to_fetch conn = conn.session.us_colleges.length / 100 ∧
    ∀ k : Nat, conn.session.us_colleges.length = 100 * k →
      get_next_page_to_fetch conn = k := by
  refine ⟨rfl, ?_⟩
  intro k hk
  simp [get_next_page_to_fetch, hk]

/-- Witness for C9: a store with 200 college rows yields next page 2. -/
theorem claim_C9_next_page_witness :
    get_next_page_to_fetch
      (Conn.mk0 { Db.empty with us_colleges := List.replicate 200 sampleCollegeRow }) = 2 :=
  (claim_C9_next_page _).2 2 (by
    show (List.replicate 200 sampleCollegeRow).length = 100 * 2
    rw [List.length_replicate])

/-! ## C8: weather reshaping tolerates short metric arrays -/

/-- C8: the weather fetcher produces one record per entry of `time`; the
record at index `i` carries each metric's entry at `i` when the metric
array has one and `none` (null) otherwise — in particular every index past
the end of a short `temperature_2m_min` array yields a null minimum
temperature; and a 200 response with a parsed body is exactly this
reshaping of its `daily` block. -/
theorem claim_C8_reshape (d : DailyBlock) :
    (reshape_daily d).length = d.time.length ∧
    (∀ i (h : i < (reshape_daily d).length),
      ((reshape_daily d).get ⟨i, h⟩).date = d.time.get? i ∧
      ((reshape_daily d).get ⟨i, h⟩).temp_max = d.temperature_2m_max.get? i ∧
      ((reshape_daily d).get ⟨i, h⟩).temp_min = d.temperature_2m_min.get? i ∧
      ((reshape_daily d).get ⟨i, h⟩).precip_sum = d.precipitation_sum.get? i ∧
      (d.temperature_2m_min.length ≤ i →
        ((reshape_daily d).get ⟨i, h⟩).temp_min = none)) ∧
    fetch_weather_for_college (.response 200 (some ⟨some d⟩)) = reshape_daily d := by
  refine ⟨by simp [reshape_daily], ?_, by simp [fetch_weather_for_college]⟩
  intro i h
  have hlen : i < d.time.length := by simpa [reshape_daily] using h
  have hget : (reshape_daily d).get ⟨i, h⟩ =
      { date := d.time.get? i
        temp_max := d.temperature_2m_max.get? i
        temp_min := d.temperature_2m_min.get? i
        precip_sum := d.precipitation_sum.get? i } := by
    simp [reshape_daily]
  refine ⟨?_, ?_, ?_, ?_, ?_⟩ <;>
    [skip; skip; skip; skip; intro hshort] <;>
    rw [List.get_eq_getElem] at hget ⊢ <;> rw [hget]
  show d.temperature_2m_min.get? i = none
  rw [List.get?_eq_getElem?]
  exact List.getElem?_eq_none hshort

/-- Witness for C8: with a `temperature_2m_min` array one element shorter
than `time`, the last produced record has a null minimum temperature. -/
theorem claim_C8_reshape_witness :
    ((reshape_daily ⟨["d1", "d2"], [10, 20], [5], [0, 0]⟩).get
      ⟨1, by decide⟩).temp_min = none :=
  ((claim_C8_reshape ⟨["d1", "d2"], [10, 20], [5], [0, 0]⟩).2.1 1
    (by decide)).2.2.2.2 (by decide)

/-! ## C2: get-or-create idempotence -/

/-- C2: for every non-empty name, calling each get-or-create lookup twice
with the same name returns the same (defined) identifier both times, and
the lookup table grows by at most one row across the two calls — for any
secondary arguments (alpha code / owning country). -/
theorem claim_C2_get_or_create_idempotent (conn : Conn) (n : String) (hn : n ≠ "")
    (a a' : Option String) (cid cid' : Option Nat) :
    ((get_or_create_country conn (some n) a).1.isSome ∧
      (get_or_create_country (get_or_create_country conn (some n) a).2 (some n) a').1
        = (get_or_create_country conn (some n) a).1 ∧
      ((get_or_create_country (get_or_create_country conn (some n) a).2
          (some n) a').2).session.countries.length ≤ conn.session.countries.length + 1) ∧
    ((get_or_create_state_province conn (some n) cid).1.isSome ∧
      (get_or_create_state_province (get_or_create_state_province conn (some n) cid).2
          (some n) cid').1
        = (get_or_create_state_province conn (some n) cid).1 ∧
      ((get_or_create_state_province (get_or_create_state_province conn (some n) cid).2
          (some n) cid').2).session.state_provinces.length
        ≤ conn.session.state_provinces.length + 1) ∧
    ((get_or_create_city conn (some n)).1.isSome ∧
      (get_or_create_city (get_or_create_city conn (some n)).2 (some n)).1
        = (get_or_create_city conn (some n)).1 ∧
      ((get_or_create_city (get_or_create_city conn (some n)).2
          (some n)).2).session.cities.length ≤ conn.session.cities.length + 1) := by
  refine ⟨?_, ?_, ?_⟩
  · rcases hf : conn.session.countries.find? (fun r => r.name = n) with _ | r
    all_goals
      simp [get_or_create_country, hn, hf, commit_conn, List.find?_append, Nat.le_succ]
  · rcases hf : conn.session.state_provinces.find? (fun r => r.name = n) with _ | r
    all_goals
      simp [get_or_create_state_province, hn, hf, commit_conn, List.find?_append, Nat.le_succ]
  · rcases hf : conn.session.cities.find? (fun r => r.name = n) with _ | r
    all_goals
      simp [get_or_create_city, hn, hf, commit_conn, List.find?_append, Nat.le_succ]

/-- Witness for C2: on an empty store, looking "France" up twice yields
identifier 1 both times and one row. -/
theorem claim_C2_get_or_create_idempotent_witness :
    (get_or_create_country (Conn.mk0 Db.empty) (some "France") (some "FR")).1.isSome ∧
    (get_or_create_country
        (get_or_create_country (Conn.mk0 Db.empty) (some "France") (some "FR")).2
        (some "France") none).1
      = (get_or_create_country (Conn.mk0 Db.empty) (some "France") (some "FR")).1 ∧
    (get_or_create_country
        (get_or_create_country (Conn.mk0 Db.empty) (some "France") (some "FR")).2
        (some "France") none).2.session.countries.length
      ≤ (Conn.mk0 Db.empty).session.countries.length + 1 :=
  (claim_C2_get_or_create_idempotent (Conn.mk0 Db.empty) "France" (by decide)
    (some "FR") none none none).1

/-! ## C3: fetcher failure behaviour -/

/-- C3 counterexample: `fetch_college_page` does NOT degrade every failure
to an empty list — a network error or timeout raised by `requests.get`
(line 59, no try/except, no timeout parameter) and a malformed JSON body
(line 66) both propagate as exceptions; and in `fetch_universities_by_country`
a 3xx response with a parseable body is returned as-is rather than
emptied (`raise_for_status` raises only for 4xx/5xx). -/
theorem claim_C3_counterexample :
    fetch_college_page .networkError = .error .requestException ∧
    fetch_college_page (.response 200 none) = .error .jsonDecodeError ∧
    fetch_universities_by_country
        (.response 302 (some [⟨some "U", none, none, none, [], []⟩]))
      = [⟨some "U", none, none, none, [], []⟩] :=
  ⟨rfl, rfl, rfl⟩

/-- C3 (amended): `fetch_universities_by_country` and
`fetch_weather_for_college` never raise — network errors/timeouts, HTTP
error statuses (4xx/5xx for universities, any non-200 for weather) and
malformed JSON all yield an empty list; `fetch_college_page` yields an
empty list on any non-200 status, but a network failure or malformed JSON
body raises past it. -/
theorem claim_C3_fetchers_fail_soft :
    (∀ (status : Nat) (body : Option ScorecardBody), status ≠ 200 →
        fetch_college_page (.response status body) = .ok []) ∧
    fetch_college_page .networkError = .error .requestException ∧
    (∀ body : Option ScorecardBody, body = none →
        fetch_college_page (.response 200 body) = .error .jsonDecodeError) ∧
    fetch_universities_by_country .networkError = [] ∧
    (∀ (status : Nat) (body : Option (List UniversityRecord)),
        400 ≤ status → status < 600 →
        fetch_universities_by_country (.response status body) = []) ∧
    (∀ status : Nat, fetch_universities_by_country (.response status none) = []) ∧
    fetch_weather_for_college .networkError = [] ∧
    (∀ (status : Nat) (body : Option OpenMeteoBody), status ≠ 200 →
        fetch_weather_for_college (.response status body) = []) ∧
    (∀ status : Nat, fetch_weather_for_college (.response status none) = []) := by
  refine ⟨?_, rfl, ?_, rfl, ?_, ?_, rfl, ?_, ?_⟩
  · intro status body h
    simp [fetch_college_page, h]
  · intro body h
    simp [fetch_college_page, h]
  · intro status body h4 h6
    have : raise_for_status_raises status = true := by
      simp [raise_for_status_raises, h4, h6]
    simp [fetch_universities_by_country, this]
  · intro status
    by_cases h : raise_for_status_raises status = true <;>
      simp [fetch_universities_by_country, h]
  · intro status body h
    simp [fetch_weather_for_college, h]
  · intro status
    by_cases h : status = 200 <;> simp [fetch_weather_for_college, h]

/-- Witness for C3 (amended): concrete failing fetches all yield the
stated results. -/
theorem claim_C3_fetchers_fail_soft_witness :
    fetch_college_page (.response 500 none) = .ok [] ∧
    fetch_college_page (.response 200 none) = .error .jsonDecodeError ∧
    fetch_universities_by_country
        (.response 404 (some [⟨some "U", none, none, none, [], []⟩])) = [] ∧
    fetch_universities_by_country (.response 200 none) = [] ∧
    fetch_weather_for_college (.response 429 (some ⟨none⟩)) = [] ∧
    fetch_weather_for_college (.response 200 none) = [] :=
  ⟨claim_C3_fetchers_fail_soft.1 500 none (by decide),
   claim_C3_fetchers_fail_soft.2.2.1 none rfl,
   claim_C3_fetchers_fail_soft.2.2.2.2.1 404 _ (by decide) (by decide),
   claim_C3_fetchers_fail_soft.2.2.2.2.2.1 200,
   claim_C3_fetchers_fail_soft.2.2.2.2.2.2.2.1 429 _ (by decide),
   claim_C3_fetchers_fail_soft.2.2.2.2.2.2.2.2 200⟩

/-! ## Loop invariants of store_universities -/

theorem store_universities_loop_quota (l : List UniversityRecord) (conn : Conn)
    (k : Nat) (hq : MAX_INSERT_PER_RUN ≤ k) :
    store_universities_loop conn k l = (conn, k) := by
  cases l with
  | nil => rfl
  | cons uni rest => rw [store_universities_loop, if_pos hq]

/-- Reduction of one successful insert step of the universities loop. -/
theorem store_universities_loop_step (conn : Conn) (k : Nat)
    (uni : UniversityRecord) (rest : List UniversityRecord) (name : String)
    (hq : ¬ MAX_INSERT_PER_RUN ≤ k) (hkey : uniKey uni = some name)
    (hdup : universitiesHasName conn.session name = false) :
    store_universities_loop conn k (uni :: rest)
      = store_universities_loop
          { conn with session := { conn.session with universities_world :=
              conn.session.universities_world ++
                [⟨nextId (conn.session.universities_world.map (·.id)), name,
                  uni.country, uni.alpha_two_code, uni.state_province,
                  uni.web_pages.head?, uni.domains.head?⟩] } } (k + 1) rest := by
  rw [store_universities_loop, if_neg hq, hkey]
  simp only [hdup, Bool.false_eq_true, if_false]
  rw [insert_university_eq _ _ _ _ _ _ _ hdup]

theorem store_universities_loop_skip_none (conn : Conn) (k : Nat)
    (uni : UniversityRecord) (rest : List UniversityRecord)
    (h : uniKey uni = none) :
    store_universities_loop conn k (uni :: rest)
      = store_universities_loop conn k rest := by
  by_cases hq : MAX_INSERT_PER_RUN ≤ k
  · rw [store_universities_loop_quota _ conn k hq,
      store_universities_loop_quota _ conn k hq]
  · rw [store_universities_loop, if_neg hq, h]

theorem store_universities_loop_skip_dup (conn : Conn) (k : Nat)
    (uni : UniversityRecord) (rest : List UniversityRecord) (name : String)
    (hkey : uniKey uni = some name)
    (hdup : universitiesHasName conn.session name = true) :
    store_universities_loop conn k (uni :: rest)
      = store_universities_loop conn k rest := by
  by_cases hq : MAX_INSERT_PER_RUN ≤ k
  · rw [store_universities_loop_quota _ conn k hq,
      store_universities_loop_quota _ conn k hq]
  · rw [store_universities_loop, if_neg hq, hkey]
    simp only [hdup, if_pos]

theorem store_universities_loop_durable (l : List UniversityRecord) :
    ∀ (conn : Conn) (k : Nat),
      (store_universities_loop conn k l).1.durable = conn.durable := by
  induction l with
  | nil => intro conn k; rfl
  | cons uni rest ih =>
    intro conn k
    by_cases hq : MAX_INSERT_PER_RUN ≤ k
    · rw [store_universities_loop_quota _ conn k hq]
    · rcases hkey : uniKey uni with _ | name
      · rw [store_universities_loop_skip_none conn k uni rest hkey]; exact ih conn k
      · by_cases hdup : universitiesHasName conn.session name = true
        · rw [store_universities_loop_skip_dup conn k uni rest name hkey hdup]
          exact ih conn k
        · simp only [Bool.not_eq_true] at hdup
          rw [store_universities_loop_step conn k uni rest name hq hkey hdup]
          exact ih _ _

theorem store_universities_loop_lookups (l : List UniversityRecord) :
    ∀ (conn : Conn) (k : Nat),
      (store_universities_loop conn k l).1.session.countries = conn.session.countries ∧
      (store_universities_loop conn k l).1.session.state_provinces
        = conn.session.state_provinces ∧
      (store_universities_loop conn k l).1.session.cities = conn.session.cities := by
  induction l with
  | nil => intro conn k; exact ⟨rfl, rfl, rfl⟩
  | cons uni rest ih =>
    intro conn k
    by_cases hq : MAX_INSERT_PER_RUN ≤ k
    · rw [store_universities_loop_quota _ conn k hq]; exact ⟨rfl, rfl, rfl⟩
    · rcases hkey : uniKey uni with _ | name
      · rw [store_universities_loop_skip_none conn k uni rest hkey]; exact ih conn k
      · by_cases hdup : universitiesHasName conn.session name = true
        · rw [store_universities_loop_skip_dup conn k uni rest name hkey hdup]
          exact ih conn k
        · simp only [Bool.not_eq_true] at hdup
          rw [store_universities_loop_step conn k uni rest name hq hkey hdup]
          exact ih _ _

theorem store_universities_loop_le (l : List UniversityRecord) :
    ∀ (conn : Conn) (k : Nat), k ≤ MAX_INSERT_PER_RUN →
      (store_universities_loop conn k l).2 ≤ MAX_INSERT_PER_RUN := by
  induction l with
  | nil => intro conn k hk; exact hk
  | cons uni rest ih =>
    intro conn k hk
    by_cases hq : MAX_INSERT_PER_RUN ≤ k
    · rw [store_universities_loop_quota _ conn k hq]; exact hk
    · rcases hkey : uniKey uni with _ | name
      · rw [store_universities_loop_skip_none conn k uni rest hkey]; exact ih conn k hk
      · by_cases hdup : universitiesHasName conn.session name = true
        · rw [store_universities_loop_skip_dup conn k uni rest name hkey hdup]
          exact ih conn k hk
        · simp only [Bool.not_eq_true] at hdup
          rw [store_universities_loop_step conn k uni rest name hq hkey hdup]
          exact ih _ (k + 1) (by omega)

theorem store_universities_loop_count (l : List UniversityRecord) :
    ∀ (conn : Conn) (k : Nat),
      (store_universities_loop conn k l).1.session.universities_world.length + k
        = conn.session.universities_world.length + (store_universities_loop conn k l).2 := by
  induction l with
  | nil => intro conn k; rfl
  | cons uni rest ih =>
    intro conn k
    by_cases hq : MAX_INSERT_PER_RUN ≤ k
    · rw [store_universities_loop_quota _ conn k hq]
    · rcases hkey : uniKey uni with _ | name
      · rw [store_universities_loop_skip_none conn k uni rest hkey]; exact ih conn k
      · by_cases hdup : universitiesHasName conn.session name = true
        · rw [store_universities_loop_skip_dup conn k uni rest name hkey hdup]
          exact ih conn k
        · simp only [Bool.not_eq_true] at hdup
          rw [store_universities_loop_step conn k uni rest name hq hkey hdup]
          have haux : ∀ c2 : Conn,
              c2.session.universities_world.length
                = conn.session.universities_world.length + 1 →
              (store_universities_loop c2 (k + 1) rest).1.session.universities_world.length + k
                = conn.session.universities_world.length
                  + (store_universities_loop c2 (k + 1) rest).2 := by
            intro c2 hc2
            have h := ih c2 (k + 1)
            omega
          apply haux
          simp [List.length_append]

theorem store_universities_loop_exact (l : List UniversityRecord) :
    ∀ (conn : Conn) (k : Nat), k ≤ MAX_INSERT_PER_RUN →
      (∀ r ∈ l, novelUniB conn.session r = true) →
      (l.map uniKey).Pairwise (· ≠ ·) →
      MAX_INSERT_PER_RUN ≤ k + l.length →
      (store_universities_loop conn k l).2 = MAX_INSERT_PER_RUN := by
  induction l with
  | nil =>
    intro conn k hk _ _ hlen
    simp only [List.length_nil, Nat.add_zero] at hlen
    show k = MAX_INSERT_PER_RUN
    omega
  | cons uni rest ih =>
    intro conn k hk hnov hpw hlen
    have hn := hnov uni (List.mem_cons_self uni rest)
    by_cases hq : MAX_INSERT_PER_RUN ≤ k
    · rw [store_universities_loop_quota _ conn k hq]
      show k = MAX_INSERT_PER_RUN
      omega
    · rcases hkey : uniKey uni with _ | name
      · simp [novelUniB, hkey] at hn
      · have hdup : universitiesHasName conn.session name = false := by
          simpa [novelUniB, hkey] using hn
        rw [store_universities_loop_step conn k uni rest name hq hkey hdup]
        rw [List.map_cons] at hpw
        have hpc := List.pairwise_cons.mp hpw
        apply ih
        · omega
        · intro r hr
          have hnr := hnov r (List.mem_cons_of_mem _ hr)
          rcases hkey2 : uniKey r with _ | n2
          · simp [novelUniB, hkey2] at hnr
          · have hd2 : universitiesHasName conn.session n2 = false := by
              simpa [novelUniB, hkey2] using hnr
            have hne : name ≠ n2 := by
              have h' := hpc.1 (uniKey r) (List.mem_map_of_mem uniKey hr)
              rw [hkey, hkey2] at h'
              intro heq
              exact h' (by rw [heq])
            simp [novelUniB, hkey2, universitiesHasName_push, hd2, hne]
        · exact hpc.2
        · simp only [List.length_cons] at hlen
          omega

/-! ## Loop invariants of store_weather -/

theorem store_weather_loop_quota (l : List WeatherRecord) (conn : Conn)
    (cid : Int) (k : Nat) (hq : MAX_INSERT_PER_RUN ≤ k) :
    store_weather_loop conn cid k l = (conn, k) := by
  cases l with
  | nil => rfl
  | cons record rest => rw [store_weather_loop, if_pos hq]

/-- Reduction of one successful insert step of the weather loop. -/
theorem store_weather_loop_step (conn : Conn) (cid : Int) (k : Nat)
    (record : WeatherRecord) (rest : List WeatherRecord) (date : String)
    (hq : ¬ MAX_INSERT_PER_RUN ≤ k) (hkey : weatherKey record = some date)
    (hdup : weatherHasKey conn.session cid date = false) :
    store_weather_loop conn cid k (record :: rest)
      = store_weather_loop
          { conn with session := { conn.session with daily_weather :=
              conn.session.daily_weather ++
                [⟨nextId (conn.session.daily_weather.map (·.id)), cid, date,
                  record.temp_max, record.temp_min, record.precip_sum⟩] } }
          cid (k + 1) rest := by
  rw [store_weather_loop, if_neg hq, hkey]
  simp only [hdup, Bool.false_eq_true, if_false]
  rw [insert_daily_weather_eq _ _ _ _ _ _ hdup]

theorem store_weather_loop_skip_none (conn : Conn) (cid : Int) (k : Nat)
    (record : WeatherRecord) (rest : List WeatherRecord)
    (h : weatherKey record = none) :
    store_weather_loop conn cid k (record :: rest)
      = store_weather_loop conn cid k rest := by
  by_cases hq : MAX_INSERT_PER_RUN ≤ k
  · rw [store_weather_loop_quota _ conn cid k hq,
      store_weather_loop_quota _ conn cid k hq]
  · rw [store_weather_loop, if_neg hq, h]

theorem store_weather_loop_skip_dup (conn : Conn) (cid : Int) (k : Nat)
    (record : WeatherRecord) (rest : List WeatherRecord) (date : String)
    (hkey : weatherKey record = some date)
    (hdup : weatherHasKey conn.session cid date = true) :
    store_weather_loop conn cid k (record :: rest)
      = store_weather_loop conn cid k rest := by
  by_cases hq : MAX_INSERT_PER_RUN ≤ k
  · rw [store_weather_loop_quota _ conn cid k hq,
      store_weather_loop_quota _ conn cid k hq]
  · rw [store_weather_loop, if_neg hq, hkey]
    simp only [hdup, if_pos]

theorem store_weather_loop_durable (l : List WeatherRecord) :
    ∀ (conn : Conn) (cid : Int) (k : Nat),
      (store_weather_loop conn cid k l).1.durable = conn.durable := by
  induction l with
  | nil => intro conn cid k; rfl
  | cons record rest ih =>
    intro conn cid k
    by_cases hq : MAX_INSERT_PER_RUN ≤ k
    · rw [store_weather_loop_quota _ conn cid k hq]
    · rcases hkey : weatherKey record with _ | date
      · rw [store_weather_loop_skip_none conn cid k record rest hkey]
        exact ih conn cid k
      · by_cases hdup : weatherHasKey conn.session cid date = true
        · rw [store_weather_loop_skip_dup conn cid k record rest date hkey hdup]
          exact ih conn cid k
        · simp only [Bool.not_eq_true] at hdup
          rw [store_weather_loop_step conn cid k record rest date hq hkey hdup]
          exact ih _ _ _

theorem store_weather_loop_lookups (l : List WeatherRecord) :
    ∀ (conn : Conn) (cid : Int) (k : Nat),
      (store_weather_loop conn cid k l).1.session.countries = conn.session.countries ∧
      (store_weather_loop conn cid k l).1.session.state_provinces
        = conn.session.state_provinces ∧
      (store_weather_loop conn cid k l).1.session.cities = conn.session.cities := by
  induction l with
  | nil => intro conn cid k; exact ⟨rfl, rfl, rfl⟩
  | cons record rest ih =>
    intro conn cid k
    by_cases hq : MAX_INSERT_PER_RUN ≤ k
    · rw [store_weather_loop_quota _ conn cid k hq]; exact ⟨rfl, rfl, rfl⟩
    · rcases hkey : weatherKey record with _ | date
      · rw [store_weather_loop_skip_none conn cid k record rest hkey]
        exact ih conn cid k
      · by_cases hdup : weatherHasKey conn.session cid date = true
        · rw [store_weather_loop_skip_dup conn cid k record rest date hkey hdup]
          exact ih conn cid k
        · simp only [Bool.not_eq_true] at hdup
          rw [store_weather_loop_step conn cid k record rest date hq hkey hdup]
          exact ih _ _ _

theorem store_weather_loop_le (l : List WeatherRecord) :
    ∀ (conn : Conn) (cid : Int) (k : Nat), k ≤ MAX_INSERT_PER_RUN →
      (store_weather_loop conn cid k l).2 ≤ MAX_INSERT_PER_RUN := by
  induction l with
  | nil => intro conn cid k hk; exact hk
  | cons record rest ih =>
    intro conn cid k hk
    by_cases hq : MAX_INSERT_PER_RUN ≤ k
    · rw [store_weather_loop_quota _ conn cid k hq]; exact hk
    · rcases hkey : weatherKey record with _ | date
      · rw [store_weather_loop_skip_none conn cid k record rest hkey]
        exact ih conn cid k hk
      · by_cases hdup : weatherHasKey conn.session cid date = true
        · rw [store_weather_loop_skip_dup conn cid k record rest date hkey hdup]
          exact ih conn cid k hk
        · simp only [Bool.not_eq_true] at hdup
          rw [store_weather_loop_step conn cid k record rest date hq hkey hdup]
          exact ih _ cid (k + 1) (by omega)

theorem store_weather_loop_count (l : List WeatherRecord) :
    ∀ (conn : Conn) (cid : Int) (k : Nat),
      (store_weather_loop conn cid k l).1.session.daily_weather.length + k
        = conn.session.daily_weather.length + (store_weather_loop conn cid k l).2 := by
  induction l with
  | nil => intro conn cid k; rfl
  | cons record rest ih =>
    intro conn cid k
    by_cases hq : MAX_INSERT_PER_RUN ≤ k
    · rw [store_weather_loop_quota _ conn cid k hq]
    · rcases hkey : weatherKey record with _ | date
      · rw [store_weather_loop_skip_none conn cid k record rest hkey]
        exact ih conn cid k
      · by_cases hdup : weatherHasKey conn.session cid date = true
        · rw [store_weather_loop_skip_dup conn cid k record rest date hkey hdup]
          exact ih conn cid k
        · simp only [Bool.not_eq_true] at hdup
          rw [store_weather_loop_step conn cid k record rest date hq hkey hdup]
          have haux : ∀ c2 : Conn,
              c2.session.daily_weather.length
                = conn.session.daily_weather.length + 1 →
              (store_weather_loop c2 cid (k + 1) rest).1.session.daily_weather.length + k
                = conn.session.daily_weather.length
                  + (store_weather_loop c2 cid (k + 1) rest).2 := by
            intro c2 hc2
            have h := ih c2 cid (k + 1)
            omega
          apply haux
          simp [List.length_append]

theorem store_weather_loop_exact (l : List WeatherRecord) :
    ∀ (conn : Conn) (cid : Int) (k : Nat), k ≤ MAX_INSERT_PER_RUN →
      (∀ r ∈ l, novelWeatherB conn.session cid r = true) →
      (l.map weatherKey).Pairwise (· ≠ ·) →
      MAX_INSERT_PER_RUN ≤ k + l.length →
      (store_weather_loop conn cid k l).2 = MAX_INSERT_PER_RUN := by
  induction l with
  | nil =>
    intro conn cid k hk _ _ hlen
    simp only [List.length_nil, Nat.add_zero] at hlen
    show k = MAX_INSERT_PER_RUN
    omega
  | cons record rest ih =>
    intro conn cid k hk hnov hpw hlen
    have hn := hnov record (List.mem_cons_self record rest)
    by_cases hq : MAX_INSERT_PER_RUN ≤ k
    · rw [store_weather_loop_quota _ conn cid k hq]
      show k = MAX_INSERT_PER_RUN
      omega
    · rcases hkey : weatherKey record with _ | date
      · simp [novelWeatherB, hkey] at hn
      · have hdup : weatherHasKey conn.session cid date = false := by
          simpa [novelWeatherB, hkey] using hn
        rw [store_weather_loop_step conn cid k record rest date hq hkey hdup]
        rw [List.map_cons] at hpw
        have hpc := List.pairwise_cons.mp hpw
        apply ih
        · omega
        · intro r hr
          have hnr := hnov r (List.mem_cons_of_mem _ hr)
          rcases hkey2 : weatherKey r with _ | d2
          · simp [novelWeatherB, hkey2] at hnr
          · have hd2 : weatherHasKey conn.session cid d2 = false := by
              simpa [novelWeatherB, hkey2] using hnr
            have hne : date ≠ d2 := by
              have h' := hpc.1 (weatherKey r) (List.mem_map_of_mem weatherKey hr)
              rw [hkey, hkey2] at h'
              intro heq
              exact h' (by rw [heq])
            simp [novelWeatherB, hkey2, weatherHasKey_push, hd2, hne]
        · exact hpc.2
        · simp only [List.length_cons] at hlen
          omega

/-! ## Loop invariants of store_college_page -/
/-! ## Loop invariants of store_college_page -/

theorem usCollegesHasId_push2 (db : Db) (rowA : UsCollegeRow)
    (rowB : CollegeFinancialsRow) (i : Int) :
    usCollegesHasId
      { db with
        us_colleges := db.us_colleges ++ [rowA]
        college_financials := db.college_financials ++ [rowB] } i
      = (usCollegesHasId db i || decide (rowA.id = i)) := by
  simp [usCollegesHasId]

theorem financialsHasId_push2 (db : Db) (rowA : UsCollegeRow)
    (rowB : CollegeFinancialsRow) (i : Int) :
    financialsHasId
      { db with
        us_colleges := db.us_colleges ++ [rowA]
        college_financials := db.college_financials ++ [rowB] } i
      = (financialsHasId db i || decide (rowB.id = i)) := by
  simp [financialsHasId]

theorem store_college_page_loop_quota (l : List CollegeRecord) (conn : Conn)
    (k : Nat) (hq : MAX_INSERT_PER_RUN ≤ k) :
    store_college_page_loop conn k l = .ok (conn, k) := by
  cases l with
  | nil => rfl
  | cons college rest => rw [store_college_page_loop, if_pos hq]

/-- Reduction of one successful insert step of the college loop. -/
theorem store_college_page_loop_step (conn : Conn) (k : Nat)
    (college : CollegeRecord) (rest : List CollegeRecord) (i : Int)
    (hq : ¬ MAX_INSERT_PER_RUN ≤ k) (hkey : college.id = some i)
    (hdup : usCollegesHasId conn.session i = false)
    (hfin : financialsHasId conn.session i = false) :
    store_college_page_loop conn k (college :: rest)
      = store_college_page_loop
          { conn with session :=
              { conn.session with
                us_colleges := conn.session.us_colleges ++ [collegeRowOf college i]
                college_financials :=
                  conn.session.college_financials ++ [financialsRowOf college i] } }
          (k + 1) rest := by
  rw [store_college_page_loop, if_neg hq, hkey]
  simp only [hdup, Bool.false_eq_true, if_false]
  have h1 : insert_us_college conn.session (collegeRowOf college i)
      = .ok { conn.session with
          us_colleges := conn.session.us_colleges ++ [collegeRowOf college i] } := by
    apply insert_us_college_eq
    show usCollegesHasId conn.session (collegeRowOf college i).id = false
    simpa [collegeRowOf] using hdup
  have h2 : insert_college_financials
      { conn.session with
          us_colleges := conn.session.us_colleges ++ [collegeRowOf college i] }
      (financialsRowOf college i)
      = .ok { conn.session with
          us_colleges := conn.session.us_colleges ++ [collegeRowOf college i]
          college_financials :=
            conn.session.college_financials ++ [financialsRowOf college i] } := by
    have h' : financialsHasId
        { conn.session with
            us_colleges := conn.session.us_colleges ++ [collegeRowOf college i] }
        (financialsRowOf college i).id = false := by
      simpa [financialsHasId, financialsRowOf] using hfin
    rw [insert_college_financials_eq _ _ h']
  simp only [h1, h2]

/-- The college loop raises `IntegrityError` when the financials table
already holds the id that passed the `us_colleges` pre-check: the second
INSERT (lines 134-139) has no try/except. -/
theorem store_college_page_loop_error (conn : Conn) (k : Nat)
    (college : CollegeRecord) (rest : List CollegeRecord) (i : Int)
    (hq : ¬ MAX_INSERT_PER_RUN ≤ k) (hkey : college.id = some i)
    (hdup : usCollegesHasId conn.session i = false)
    (hfin : financialsHasId conn.session i = true) :
    store_college_page_loop conn k (college :: rest) = .error .integrityError := by
  rw [store_college_page_loop, if_neg hq, hkey]
  simp only [hdup, Bool.false_eq_true, if_false]
  have h1 : insert_us_college conn.session (collegeRowOf college i)
      = .ok { conn.session with
          us_colleges := conn.session.us_colleges ++ [collegeRowOf college i] } := by
    apply insert_us_college_eq
    show usCollegesHasId conn.session (collegeRowOf college i).id = false
    simpa [collegeRowOf] using hdup
  have h2 : insert_college_financials
      { conn.session with
          us_colleges := conn.session.us_colleges ++ [collegeRowOf college i] }
      (financialsRowOf college i) = .error .integrityError := by
    have h' : financialsHasId
        { conn.session with
            us_colleges := conn.session.us_colleges ++ [collegeRowOf college i] }
        (financialsRowOf college i).id = true := by
      simpa [financialsHasId, financialsRowOf] using hfin
    simp [insert_college_financials, h']
  simp only [h1, h2]

theorem store_college_page_loop_skip_none (conn : Conn) (k : Nat)
    (college : CollegeRecord) (rest : List CollegeRecord)
    (h : college.id = none) :
    store_college_page_loop conn k (college :: rest)
      = store_college_page_loop conn k rest := by
  by_cases hq : MAX_INSERT_PER_RUN ≤ k
  · rw [store_college_page_loop_quota _ conn k hq,
      store_college_page_loop_quota _ conn k hq]
  · rw [store_college_page_loop, if_neg hq, h]

theorem store_college_page_loop_skip_dup (conn : Conn) (k : Nat)
    (college : CollegeRecord) (rest : List CollegeRecord) (i : Int)
    (hkey : college.id = some i)
    (hdup : usCollegesHasId conn.session i = true) :
    store_college_page_loop conn k (college :: rest)
      = store_college_page_loop conn k rest := by
  by_cases hq : MAX_INSERT_PER_RUN ≤ k
  · rw [store_college_page_loop_quota _ conn k hq,
      store_college_page_loop_quota _ conn k hq]
  · rw [store_college_page_loop, if_neg hq, hkey]
    simp only [hdup, if_pos]

theorem store_college_page_loop_durable (l : List CollegeRecord) :
    ∀ (conn : Conn) (k : Nat) (out : Conn × Nat),
      store_college_page_loop conn k l = .ok out → out.1.durable = conn.durable := by
  induction l with
  | nil =>
    intro conn k out h
    injection h with h'
    rw [← h']
  | cons college rest ih =>
    intro conn k out h
    by_cases hq : MAX_INSERT_PER_RUN ≤ k
    · rw [store_college_page_loop_quota _ conn k hq] at h
      injection h with h'
      rw [← h']
    · rcases hkey : college.id with _ | i
      · rw [store_college_page_loop_skip_none conn k college rest hkey] at h
        exact ih conn k out h
      · by_cases hdup : usCollegesHasId conn.session i = true
        · rw [store_college_page_loop_skip_dup conn k college rest i hkey hdup] at h
          exact ih conn k out h
        · simp only [Bool.not_eq_true] at hdup
          by_cases hfin : financialsHasId conn.session i = true
          · rw [store_college_page_loop_error conn k college rest i hq hkey hdup hfin] at h
            exact absurd h (by simp)
          · simp only [Bool.not_eq_true] at hfin
            rw [store_college_page_loop_step conn k college rest i hq hkey hdup hfin] at h
            have h' := ih _ _ _ h
            exact h'

theorem store_college_page_loop_lookups (l : List CollegeRecord) :
    ∀ (conn : Conn) (k : Nat) (out : Conn × Nat),
      store_college_page_loop conn k l = .ok out →
      out.1.session.countries = conn.session.countries ∧
      out.1.session.state_provinces = conn.session.state_provinces ∧
      out.1.session.cities = conn.session.cities := by
  induction l with
  | nil =>
    intro conn k out h
    injection h with h'
    rw [← h']
    exact ⟨rfl, rfl, rfl⟩
  | cons college rest ih =>
    intro conn k out h
    by_cases hq : MAX_INSERT_PER_RUN ≤ k
    · rw [store_college_page_loop_quota _ conn k hq] at h
      injection h with h'
      rw [← h']
      exact ⟨rfl, rfl, rfl⟩
    · rcases hkey : college.id with _ | i
      · rw [store_college_page_loop_skip_none conn k college rest hkey] at h
        exact ih conn k out h
      · by_cases hdup : usCollegesHasId conn.session i = true
        · rw [store_college_page_loop_skip_dup conn k college rest i hkey hdup] at h
          exact ih conn k out h
        · simp only [Bool.not_eq_true] at hdup
          by_cases hfin : financialsHasId conn.session i = true
          · rw [store_college_page_loop_error conn k college rest i hq hkey hdup hfin] at h
            exact absurd h (by simp)
          · simp only [Bool.not_eq_true] at hfin
            rw [store_college_page_loop_step conn k college rest i hq hkey hdup hfin] at h
            have h' := ih _ _ _ h
            exact h'

theorem store_college_page_loop_le (l : List CollegeRecord) :
    ∀ (conn : Conn) (k : Nat) (out : Conn × Nat), k ≤ MAX_INSERT_PER_RUN →
      store_college_page_loop conn k l = .ok out → out.2 ≤ MAX_INSERT_PER_RUN := by
  induction l with
  | nil =>
    intro conn k out hk h
    injection h with h'
    rw [← h']
    exact hk
  | cons college rest ih =>
    intro conn k out hk h
    by_cases hq : MAX_INSERT_PER_RUN ≤ k
    · rw [store_college_page_loop_quota _ conn k hq] at h
      injection h with h'
      rw [← h']
      exact hk
    · rcases hkey : college.id with _ | i
      · rw [store_college_page_loop_skip_none conn k college rest hkey] at h
        exact ih conn k out hk h
      · by_cases hdup : usCollegesHasId conn.session i = true
        · rw [store_college_page_loop_skip_dup conn k college rest i hkey hdup] at h
          exact ih conn k out hk h
        · simp only [Bool.not_eq_true] at hdup
          by_cases hfin : financialsHasId conn.session i = true
          · rw [store_college_page_loop_error conn k college rest i hq hkey hdup hfin] at h
            exact absurd h (by simp)
          · simp only [Bool.not_eq_true] at hfin
            rw [store_college_page_loop_step conn k college rest i hq hkey hdup hfin] at h
            exact ih _ (k + 1) out (by omega) h

theorem store_college_page_loop_count (l : List CollegeRecord) :
    ∀ (conn : Conn) (k : Nat) (out : Conn × Nat),
      store_college_page_loop conn k l = .ok out →
      out.1.session.us_colleges.length + k
        = conn.session.us_colleges.length + out.2 := by
  induction l with
  | nil =>
    intro conn k out h
    injection h with h'
    rw [← h']
  | cons college rest ih =>
    intro conn k out h
    by_cases hq : MAX_INSERT_PER_RUN ≤ k
    · rw [store_college_page_loop_quota _ conn k hq] at h
      injection h with h'
      rw [← h']
    · rcases hkey : college.id with _ | i
      · rw [store_college_page_loop_skip_none conn k college rest hkey] at h
        exact ih conn k out h
      · by_cases hdup : usCollegesHasId conn.session i = true
        · rw [store_college_page_loop_skip_dup conn k college rest i hkey hdup] at h
          exact ih conn k out h
        · simp only [Bool.not_eq_true] at hdup
          by_cases hfin : financialsHasId conn.session i = true
          · rw [store_college_page_loop_error conn k college rest i hq hkey hdup hfin] at h
            exact absurd h (by simp)
          · simp only [Bool.not_eq_true] at hfin
            rw [store_college_page_loop_step conn k college rest i hq hkey hdup hfin] at h
            have haux : ∀ c2 : Conn,
                c2.session.us_colleges.length = conn.session.us_colleges.length + 1 →
                store_college_page_loop c2 (k + 1) rest = .ok out →
                out.1.session.us_colleges.length + k
                  = conn.session.us_colleges.length + out.2 := by
              intro c2 hc2 h2
              have hcount := ih c2 (k + 1) out h2
              omega
            exact haux _ (by simp [List.length_append]) h

theorem store_college_page_loop_exact (l : List CollegeRecord) :
    ∀ (conn : Conn) (k : Nat), k ≤ MAX_INSERT_PER_RUN →
      (∀ r ∈ l, novelCollegeB conn.session r = true) →
      (l.map CollegeRecord.id).Pairwise (· ≠ ·) →
      MAX_INSERT_PER_RUN ≤ k + l.length →
      ∃ c : Conn, store_college_page_loop conn k l = .ok (c, MAX_INSERT_PER_RUN) := by
  induction l with
  | nil =>
    intro conn k hk _ _ hlen
    simp only [List.length_nil, Nat.add_zero] at hlen
    have hke : k = MAX_INSERT_PER_RUN := by omega
    subst hke
    exact ⟨conn, rfl⟩
  | cons college rest ih =>
    intro conn k hk hnov hpw hlen
    have hn := hnov college (List.mem_cons_self college rest)
    by_cases hq : MAX_INSERT_PER_RUN ≤ k
    · have hke : k = MAX_INSERT_PER_RUN := by omega
      refine ⟨conn, ?_⟩
      rw [store_college_page_loop_quota _ conn k hq, hke]
    · rcases hkey : college.id with _ | i
      · simp [novelCollegeB, hkey] at hn
      · have hboth : usCollegesHasId conn.session i = false ∧
            financialsHasId conn.session i = false := by
          have := hn
          simp [novelCollegeB, hkey] at this
          exact this
        rw [store_college_page_loop_step conn k college rest i hq hkey hboth.1 hboth.2]
        rw [List.map_cons] at hpw
        have hpc := List.pairwise_cons.mp hpw
        apply ih
        · omega
        · intro r hr
          have hnr := hnov r (List.mem_cons_of_mem _ hr)
          rcases hkey2 : r.id with _ | i2
          · simp [novelCollegeB, hkey2] at hnr
          · have hd2 : usCollegesHasId conn.session i2 = false ∧
                financialsHasId conn.session i2 = false := by
              have := hnr
              simp [novelCollegeB, hkey2] at this
              exact this
            have hne : i ≠ i2 := by
              have h' := hpc.1 r.id (List.mem_map_of_mem CollegeRecord.id hr)
              rw [hkey, hkey2] at h'
              intro heq
              exact h' (by rw [heq])
            simp [novelCollegeB, hkey2, usCollegesHasId_push2, financialsHasId_push2,
              collegeRowOf, financialsRowOf, hd2.1, hd2.2, hne]
        · exact hpc.2
        · simp only [List.length_cons] at hlen
          omega

/-! ## Concrete inputs used by witnesses and counterexamples -/

/-! ## C10: records with a missing natural key are skipped -/

/-- C10: a college record with an absent id, a university record with a
missing/empty name, and a weather record with a missing date are each
skipped: no row is inserted, the count is not incremented, and the run
continues exactly as if the record were not in the batch. -/
theorem claim_C10_missing_key_skipped :
    (∀ (conn : Conn) (college : CollegeRecord) (rest : List CollegeRecord),
        college.id = none →
        store_college_page conn (college :: rest) = store_college_page conn rest) ∧
    (∀ (conn : Conn) (uni : UniversityRecord) (rest : List UniversityRecord),
        uniKey uni = none →
        store_universities conn (uni :: rest) = store_universities conn rest) ∧
    (∀ (conn : Conn) (cid : Int) (record : WeatherRecord) (rest : List WeatherRecord),
        record.date = none →
        store_weather conn cid (record :: rest) = store_weather conn cid rest) := by
  refine ⟨?_, ?_, ?_⟩
  · intro conn college rest h
    simp only [store_college_page, store_college_page_loop_skip_none conn 0 college rest h]
  · intro conn uni rest h
    simp only [store_universities, store_universities_loop_skip_none conn 0 uni rest h]
  · intro conn cid record rest h
    have hkey : weatherKey record = none := by simp [weatherKey, h]
    simp only [store_weather, store_weather_loop_skip_none conn cid 0 record rest hkey]

/-- Witness for C10: each skip at a concrete record and empty rest. -/
theorem claim_C10_missing_key_skipped_witness :
    store_college_page (Conn.mk0 Db.empty) [recNoId]
      = store_college_page (Conn.mk0 Db.empty) [] ∧
    store_universities (Conn.mk0 Db.empty) [recNoName]
      = store_universities (Conn.mk0 Db.empty) [] ∧
    store_weather (Conn.mk0 Db.empty) 7 [recNoDate]
      = store_weather (Conn.mk0 Db.empty) 7 [] :=
  ⟨claim_C10_missing_key_skipped.1 _ recNoId [] rfl,
   claim_C10_missing_key_skipped.2.1 _ recNoName [] rfl,
   claim_C10_missing_key_skipped.2.2 _ 7 recNoDate [] rfl⟩

/-! ## C4: handling of uniqueness violations at insert time -/

/-- C4 counterexample: `store_college_page` wraps its INSERTs in no
try/except, so an `IntegrityError` is NOT treated as a skip — on a store
whose `college_financials` table already holds id 7 (not caught by the
`us_colleges` pre-check), the whole call raises. -/
theorem claim_C4_counterexample :
    store_college_page dupFinancialsConn [collegeRec7] = .error .integrityError := rfl

/-- C4 (amended): in `store_universities` and `store_weather` a duplicate
key — whether seen by the pre-check or by the constraint at insert — is
skipped with no count increment and no error, and processing continues;
`store_college_page` has no handler, so a uniqueness violation at insert
time (its second INSERT is not pre-checked) propagates to the caller. -/
theorem claim_C4_integrity_skip :
    (∀ (conn : Conn) (k : Nat) (uni : UniversityRecord)
        (rest : List UniversityRecord) (name : String),
        uniKey uni = some name → universitiesHasName conn.session name = true →
        store_universities_loop conn k (uni :: rest)
          = store_universities_loop conn k rest) ∧
    (∀ (conn : Conn) (cid : Int) (k : Nat) (record : WeatherRecord)
        (rest : List WeatherRecord) (date : String),
        weatherKey record = some date → weatherHasKey conn.session cid date = true →
        store_weather_loop conn cid k (record :: rest)
          = store_weather_loop conn cid k rest) ∧
    (∀ (conn : Conn) (college : CollegeRecord) (rest : List CollegeRecord) (i : Int),
        college.id = some i → usCollegesHasId conn.session i = false →
        financialsHasId conn.session i = true →
        store_college_page conn (college :: rest) = .error .integrityError) := by
  refine ⟨?_, ?_, ?_⟩
  · intro conn k uni rest name hkey hdup
    exact store_universities_loop_skip_dup conn k uni rest name hkey hdup
  · intro conn cid k record rest date hkey hdup
    exact store_weather_loop_skip_dup conn cid k record rest date hkey hdup
  · intro conn college rest i hkey hdup hfin
    have hq : ¬ MAX_INSERT_PER_RUN ≤ 0 := by norm_num [MAX_INSERT_PER_RUN]
    simp only [store_college_page,
      store_college_page_loop_error conn 0 college rest i hq hkey hdup hfin]

/-- Witness for C4 (amended): the three behaviours at concrete stores. -/
theorem claim_C4_integrity_skip_witness :
    store_universities_loop connWithUniA 0 [uniRecA]
      = store_universities_loop connWithUniA 0 [] ∧
    store_weather_loop connWithWeatherD 1 0 [weatherRecD]
      = store_weather_loop connWithWeatherD 1 0 [] ∧
    store_college_page dupFinancialsConn [collegeRec7] = .error .integrityError :=
  ⟨claim_C4_integrity_skip.1 connWithUniA 0 uniRecA [] "A" rfl rfl,
   claim_C4_integrity_skip.2.1 connWithWeatherD 1 0 weatherRecD [] "d" rfl rfl,
   claim_C4_integrity_skip.2.2 dupFinancialsConn collegeRec7 [] 7 rfl rfl rfl⟩

/-! ## C5: commit granularity -/

/-- C5 counterexample: a run interrupted after processing (and accepting)
its first record has committed NOTHING — the accepted count is 1 but the
durable store still has zero university rows, because the only
`conn.commit()` sits after the whole loop. -/
theorem claim_C5_counterexample :
    (store_universities_interrupted (Conn.mk0 Db.empty) [uniRecA] 1).2 = 1 ∧
    ((store_universities_interrupted (Conn.mk0 Db.empty)
      [uniRecA] 1).1).durable.universities_world.length = 0 :=
  ⟨rfl, rfl⟩

/-- C5 (amended): each controller runs one transaction per invocation —
nothing is durable while the loop runs (interrupting after any k records
leaves the durable store exactly as before the run), and the single
commit after the loop publishes the whole run at once (afterwards the
durable and session states coincide). -/
theorem claim_C5_single_commit :
    (∀ (conn : Conn) (l : List UniversityRecord) (k : Nat),
        (store_universities_interrupted conn l k).1.durable = conn.durable) ∧
    (∀ (conn : Conn) (cid : Int) (l : List WeatherRecord) (k : Nat),
        (store_weather_interrupted conn cid l k).1.durable = conn.durable) ∧
    (∀ (conn : Conn) (l : List CollegeRecord) (k : Nat) (out : Conn × Nat),
        store_college_page_interrupted conn l k = .ok out →
        out.1.durable = conn.durable) ∧
    (∀ (conn : Conn) (l : List UniversityRecord),
        (store_universities conn l).1.durable = (store_universities conn l).1.session) ∧
    (∀ (conn : Conn) (cid : Int) (l : List WeatherRecord),
        (store_weather conn cid l).1.durable = (store_weather conn cid l).1.session) ∧
    (∀ (conn : Conn) (l : List CollegeRecord) (out : Conn × Nat),
        store_college_page conn l = .ok out → out.1.durable = out.1.session) := by
  refine ⟨?_, ?_, ?_, ?_, ?_, ?_⟩
  · intro conn l k
    exact store_universities_loop_durable (l.take k) conn 0
  · intro conn cid l k
    exact store_weather_loop_durable (l.take k) conn cid 0
  · intro conn l k out h
    exact store_college_page_loop_durable (l.take k) conn 0 out h
  · intro conn l
    rfl
  · intro conn cid l
    rfl
  · intro conn l out h
    cases hin : store_college_page_loop conn 0 l with
    | error e =>
      simp only [store_college_page, hin] at h
      exact Except.noConfusion h
    | ok p =>
      simp only [store_college_page, hin] at h
      injection h with h2
      rw [← h2]
      rfl

/-- Witness for C5 (amended): concrete instances, including the
college-store hypotheses discharged on an empty batch. -/
theorem claim_C5_single_commit_witness :
    (store_universities_interrupted (Conn.mk0 Db.empty) [uniRecA] 1).1.durable
      = (Conn.mk0 Db.empty).durable ∧
    (store_weather_interrupted (Conn.mk0 Db.empty) 1 [weatherRecD] 1).1.durable
      = (Conn.mk0 Db.empty).durable ∧
    ((Conn.mk0 Db.empty, 0) : Conn × Nat).1.durable = (Conn.mk0 Db.empty).durable ∧
    (store_universities (Conn.mk0 Db.empty) [uniRecA]).1.durable
      = (store_universities (Conn.mk0 Db.empty) [uniRecA]).1.session ∧
    ((commit_conn (Conn.mk0 Db.empty), 0) : Conn × Nat).1.durable
      = ((commit_conn (Conn.mk0 Db.empty), 0) : Conn × Nat).1.session :=
  ⟨claim_C5_single_commit.1 (Conn.mk0 Db.empty) [uniRecA] 1,
   claim_C5_single_commit.2.1 (Conn.mk0 Db.empty) 1 [weatherRecD] 1,
   claim_C5_single_commit.2.2.1 (Conn.mk0 Db.empty) [] 0 (Conn.mk0 Db.empty, 0) rfl,
   claim_C5_single_commit.2.2.2.1 (Conn.mk0 Db.empty) [uniRecA],
   claim_C5_single_commit.2.2.2.2.2 (Conn.mk0 Db.empty) []
     (commit_conn (Conn.mk0 Db.empty), 0) rfl⟩

/-! ## C7: lookup-entity resolution -/

/-- C7 counterexample: `store_universities` accepts a record naming
country "France" yet creates no `countries` row and stores the raw string
in the primary row — the get-or-create lookups (which WOULD have created
a row, last conjunct) are never invoked by the controllers. -/
theorem claim_C7_counterexample :
    (store_universities (Conn.mk0 Db.empty) [uniRecMIT]).2 = 1 ∧
    (store_universities (Conn.mk0 Db.empty) [uniRecMIT]).1.session.countries = [] ∧
    ((store_universities (Conn.mk0 Db.empty) [uniRecMIT]).1.session.universities_world.map
        (fun r => r.country)) = [some "France"] ∧
    ((get_or_create_country (Conn.mk0 Db.empty) (some "France")
      (some "FR")).2).session.countries = [⟨1, "France", some "FR"⟩] :=
  ⟨rfl, rfl, rfl, rfl⟩

/-- C7 (amended): no dedup-and-insert controller resolves lookup entities:
the lookup tables (`countries`, `state_provinces`, `cities`) are left
unchanged by every store call; the raw name strings are carried in the
primary row instead. -/
theorem claim_C7_no_lookup_resolution :
    (∀ (conn : Conn) (l : List UniversityRecord),
        (store_universities conn l).1.session.countries = conn.session.countries ∧
        (store_universities conn l).1.session.state_provinces
          = conn.session.state_provinces ∧
        (store_universities conn l).1.session.cities = conn.session.cities) ∧
    (∀ (conn : Conn) (cid : Int) (l : List WeatherRecord),
        (store_weather conn cid l).1.session.countries = conn.session.countries ∧
        (store_weather conn cid l).1.session.state_provinces
          = conn.session.state_provinces ∧
        (store_weather conn cid l).1.session.cities = conn.session.cities) ∧
    (∀ (conn : Conn) (l : List CollegeRecord) (out : Conn × Nat),
        store_college_page conn l = .ok out →
        out.1.session.countries = conn.session.countries ∧
        out.1.session.state_provinces = conn.session.state_provinces ∧
        out.1.session.cities = conn.session.cities) := by
  refine ⟨?_, ?_, ?_⟩
  · intro conn l
    exact store_universities_loop_lookups l conn 0
  · intro conn cid l
    exact store_weather_loop_lookups l conn cid 0
  · intro conn l out h
    cases hin : store_college_page_loop conn 0 l with
    | error e =>
      simp only [store_college_page, hin] at h
      exact Except.noConfusion h
    | ok p =>
      simp only [store_college_page, hin] at h
      injection h with h2
      rw [← h2]
      exact store_college_page_loop_lookups l conn 0 p hin

/-- Witness for C7 (amended): concrete stores, college hypotheses
discharged on the singleton batch. -/
theorem claim_C7_no_lookup_resolution_witness :
    (store_universities (Conn.mk0 Db.empty) [uniRecMIT]).1.session.countries
      = (Conn.mk0 Db.empty).session.countries ∧
    (store_weather (Conn.mk0 Db.empty) 1 [weatherRecD]).1.session.cities
      = (Conn.mk0 Db.empty).session.cities ∧
    ((commit_conn (Conn.mk0 Db.empty), 0) : Conn × Nat).1.session.countries
      = (Conn.mk0 Db.empty).session.countries :=
  ⟨(claim_C7_no_lookup_resolution.1 (Conn.mk0 Db.empty) [uniRecMIT]).1,
    (claim_C7_no_lookup_resolution.2.1 (Conn.mk0 Db.empty) 1 [weatherRecD]).2.2,
    (claim_C7_no_lookup_resolution.2.2 (Conn.mk0 Db.empty) []
      (commit_conn (Conn.mk0 Db.empty), 0) rfl).1⟩

/-! ## C1: quota and count accounting -/

/-- C1: every dedup-and-insert controller returns a count that is at most
`MAX_INSERT_PER_RUN = 25` and that equals the number of primary rows
actually added to the (durable) table; and on a batch of at least 25
records all carrying distinct natural keys that are novel for the store,
it inserts exactly 25 rows and returns 25. -/
theorem claim_C1_quota_and_count :
    (∀ (conn : Conn) (l : List CollegeRecord) (out : Conn × Nat),
        store_college_page conn l = .ok out →
        out.2 ≤ MAX_INSERT_PER_RUN ∧
        out.1.durable.us_colleges.length
          = conn.session.us_colleges.length + out.2) ∧
    (∀ (conn : Conn) (l : List UniversityRecord),
        (store_universities conn l).2 ≤ MAX_INSERT_PER_RUN ∧
        (store_universities conn l).1.durable.universities_world.length
          = conn.session.universities_world.length + (store_universities conn l).2) ∧
    (∀ (conn : Conn) (cid : Int) (l : List WeatherRecord),
        (store_weather conn cid l).2 ≤ MAX_INSERT_PER_RUN ∧
        (store_weather conn cid l).1.durable.daily_weather.length
          = conn.session.daily_weather.length + (store_weather conn cid l).2) ∧
    (∀ (conn : Conn) (l : List CollegeRecord),
        (∀ r ∈ l, novelCollegeB conn.session r = true) →
        (l.map CollegeRecord.id).Pairwise (· ≠ ·) →
        MAX_INSERT_PER_RUN ≤ l.length →
        ∃ c : Conn, store_college_page conn l = .ok (c, MAX_INSERT_PER_RUN)) ∧
    (∀ (conn : Conn) (l : List UniversityRecord),
        (∀ r ∈ l, novelUniB conn.session r = true) →
        (l.map uniKey).Pairwise (· ≠ ·) →
        MAX_INSERT_PER_RUN ≤ l.length →
        (store_universities conn l).2 = MAX_INSERT_PER_RUN) ∧
    (∀ (conn : Conn) (cid : Int) (l : List WeatherRecord),
        (∀ r ∈ l, novelWeatherB conn.session cid r = true) →
        (l.map weatherKey).Pairwise (· ≠ ·) →
        MAX_INSERT_PER_RUN ≤ l.length →
        (store_weather conn cid l).2 = MAX_INSERT_PER_RUN) := by
  refine ⟨?_, ?_, ?_, ?_, ?_, ?_⟩
  · intro conn l out h
    cases hin : store_college_page_loop conn 0 l with
    | error e =>
      simp only [store_college_page, hin] at h
      exact Except.noConfusion h
    | ok p =>
      simp only [store_college_page, hin] at h
      injection h with h2
      rw [← h2]
      constructor
      · exact store_college_page_loop_le l conn 0 p (by norm_num) hin
      · have hc := store_college_page_loop_count l conn 0 p hin
        show p.1.session.us_colleges.length = conn.session.us_colleges.length + p.2
        omega
  · intro conn l
    constructor
    · exact store_universities_loop_le l conn 0 (by norm_num)
    · have hc := store_universities_loop_count l conn 0
      show (store_universities_loop conn 0 l).1.session.universities_world.length
        = conn.session.universities_world.length + (store_universities_loop conn 0 l).2
      omega
  · intro conn cid l
    constructor
    · exact store_weather_loop_le l conn cid 0 (by norm_num)
    · have hc := store_weather_loop_count l conn cid 0
      show (store_weather_loop conn cid 0 l).1.session.daily_weather.length
        = conn.session.daily_weather.length + (store_weather_loop conn cid 0 l).2
      omega
  · intro conn l hnov hpw hlen
    obtain ⟨c, hc⟩ := store_college_page_loop_exact l conn 0 (by norm_num) hnov hpw
      (by simpa using hlen)
    exact ⟨commit_conn c, by simp only [store_college_page, hc]⟩
  · intro conn l hnov hpw hlen
    show (store_universities_loop conn 0 l).2 = MAX_INSERT_PER_RUN
    exact store_universities_loop_exact l conn 0 (by norm_num) hnov hpw
      (by simpa using hlen)
  · intro conn cid l hnov hpw hlen
    show (store_weather_loop conn cid 0 l).2 = MAX_INSERT_PER_RUN
    exact store_weather_loop_exact l conn cid 0 (by norm_num) hnov hpw
      (by simpa using hlen)

/-- Witness for C1: on an empty store and the three 25-record novel
batches, each controller returns exactly 25, and the college store's
durable table afterwards holds exactly 25 rows. -/
theorem claim_C1_quota_and_count_witness :
    (store_universities (Conn.mk0 Db.empty) uniBatch25).2 = MAX_INSERT_PER_RUN ∧
    (store_weather (Conn.mk0 Db.empty) 1 weatherBatch25).2 = MAX_INSERT_PER_RUN ∧
    (store_college_page (Conn.mk0 Db.empty) collegeBatch25).toOption.map Prod.snd
      = some MAX_INSERT_PER_RUN ∧
    (store_college_page (Conn.mk0 Db.empty) collegeBatch25).toOption.map
        (fun out => out.1.durable.us_colleges.length) = some MAX_INSERT_PER_RUN := by
  obtain ⟨c, hc⟩ := claim_C1_quota_and_count.2.2.2.1 (Conn.mk0 Db.empty) collegeBatch25
    (by decide) (by decide) (by decide)
  refine ⟨claim_C1_quota_and_count.2.2.2.2.1 (Conn.mk0 Db.empty) uniBatch25
      (by decide) (by decide) (by decide),
    claim_C1_quota_and_count.2.2.2.2.2 (Conn.mk0 Db.empty) 1 weatherBatch25
      (by decide) (by decide) (by decide), ?_, ?_⟩
  · rw [hc]
    rfl
  · have hlen := (claim_C1_quota_and_count.1 (Conn.mk0 Db.empty) collegeBatch25
      (c, MAX_INSERT_PER_RUN) hc).2
    rw [hc]
    simp only [Except.toOption, Option.map]
    show some (c.durable.us_colleges.length) = some MAX_INSERT_PER_RUN
    rw [show c.durable.us_colleges.length = (c, MAX_INSERT_PER_RUN).1.durable.us_colleges.length from rfl, hlen]
    rfl

/-! ## C6: weather candidate selection -/

/-- C6 counterexample: the partial-weather query admits a college with 27
existing weather rows (its HAVING bound is `< 30`, not `quota - 1 = 24`),
and it has no ORDER BY — with table order A(5 rows), B(3 rows) it returns
the counts in order [5, 3], not ascending. -/
theorem claim_C6_counterexample :
    get_colleges_needing_weather connC6a 5 = [] ∧
    (get_colleges_with_partial_weather connC6a 5).map (·.2) = [27] ∧
    select_weather_candidates connC6a = [collegeA] ∧
    (get_colleges_with_partial_weather connC6b 5).map (·.2) = [5, 3] ∧
    ¬ List.Sorted (· ≤ ·) ((get_colleges_with_partial_weather connC6b 5).map (·.2)) := by
  refine ⟨by decide, by decide, by decide, by decide, ?_⟩
  intro hs
  have : (5 : Nat) ≤ 3 := by
    have hmap : (get_colleges_with_partial_weather connC6b 5).map (·.2) = [5, 3] := by decide
    rw [hmap] at hs
    exact List.rel_of_sorted_cons hs 3 (by decide)
  omega

/-- C6 (amended): `get_colleges_needing_weather` returns at most `limit`
colleges, each with non-null coordinates and zero weather rows;
`get_colleges_with_partial_weather` returns at most `limit` colleges,
each with non-null coordinates and an existing weather-row count in
1..29, in table order (no ordering by count); the runner picks the
zero-weather list when it is non-empty and falls back to the
partial-weather list otherwise; a college with a null latitude or
longitude is never selected. -/
theorem claim_C6_weather_candidates :
    (∀ (conn : Conn) (limit : Nat),
        (get_colleges_needing_weather conn limit).length ≤ limit ∧
        ∀ c ∈ get_colleges_needing_weather conn limit,
          c.lat.isSome = true ∧ c.lon.isSome = true ∧
          weatherCountFor conn.session c.id = 0) ∧
    (∀ (conn : Conn) (limit : Nat),
        (get_colleges_with_partial_weather conn limit).length ≤ limit ∧
        ∀ p ∈ get_colleges_with_partial_weather conn limit,
          p.1.lat.isSome = true ∧ p.1.lon.isSome = true ∧
          p.2 = weatherCountFor conn.session p.1.id ∧ 1 ≤ p.2 ∧ p.2 < 30) ∧
    (∀ conn : Conn,
        (get_colleges_needing_weather conn 5 ≠ [] →
          select_weather_candidates conn = get_colleges_needing_weather conn 5) ∧
        (get_colleges_needing_weather conn 5 = [] →
          select_weather_candidates conn
            = (get_colleges_with_partial_weather conn 5).map (·.1))) ∧
    (∀ (conn : Conn) (c : UsCollegeRow), c ∈ select_weather_candidates conn →
        c.lat.isSome = true ∧ c.lon.isSome = true) := by
  have hneed : ∀ (conn : Conn) (limit : Nat),
      ∀ c ∈ get_colleges_needing_weather conn limit,
        c.lat.isSome = true ∧ c.lon.isSome = true ∧
        weatherCountFor conn.session c.id = 0 := by
    intro conn limit c hc
    have hmem := List.mem_of_mem_take hc
    have hp := (List.mem_filter.mp hmem).2
    simp only [Bool.and_eq_true, Bool.not_eq_true'] at hp
    refine ⟨hp.1.1, hp.1.2, ?_⟩
    rw [List.any_eq_false] at hp
    simp only [weatherCountFor, List.length_eq_zero, List.filter_eq_nil_iff]
    exact hp.2
  have hpart : ∀ (conn : Conn) (limit : Nat),
      ∀ p ∈ get_colleges_with_partial_weather conn limit,
        p.1.lat.isSome = true ∧ p.1.lon.isSome = true ∧
        p.2 = weatherCountFor conn.session p.1.id ∧ 1 ≤ p.2 ∧ p.2 < 30 := by
    intro conn limit p hp
    have hmem := List.mem_of_mem_take hp
    have h1 := (List.mem_filter.mp hmem).1
    have h2 := (List.mem_filter.mp hmem).2
    obtain ⟨c, hcmem, hceq⟩ := List.mem_map.mp h1
    subst hceq
    have hcoord := (List.mem_filter.mp hcmem).2
    simp only [Bool.and_eq_true] at hcoord
    simp only [Bool.and_eq_true, decide_eq_true_eq] at h2
    exact ⟨hcoord.1, hcoord.2, rfl, h2.1, h2.2⟩
  refine ⟨?_, ?_, ?_, ?_⟩
  · intro conn limit
    refine ⟨?_, hneed conn limit⟩
    rw [get_colleges_needing_weather, List.length_take]
    exact min_le_left _ _
  · intro conn limit
    refine ⟨?_, hpart conn limit⟩
    rw [get_colleges_with_partial_weather, List.length_take]
    exact min_le_left _ _
  · intro conn
    constructor
    · intro hne
      rw [select_weather_candidates]
      have : (get_colleges_needing_weather conn 5).isEmpty = false := by
        rcases h : get_colleges_needing_weather conn 5 with _ | _
        · exact absurd h hne
        · rfl
      simp [this]
    · intro he
      rw [select_weather_candidates]
      simp [he]
  · intro conn c hc
    rw [select_weather_candidates] at hc
    by_cases he : (get_colleges_needing_weather conn 5).isEmpty = true
    · simp only [he, if_pos] at hc
      obtain ⟨p, hpmem, hpeq⟩ := List.mem_map.mp hc
      have := hpart conn 5 p hpmem
      rw [← hpeq]
      exact ⟨this.1, this.2.1⟩
    · simp only [Bool.not_eq_true] at he
      simp only [he, Bool.false_eq_true, if_false] at hc
      have := hneed conn 5 c hc
      exact ⟨this.1, this.2.1⟩

/-- Witness for C6 (amended): on a store with one coordinate-less college
and one college with coordinates and no weather, the runner selects the
zero-weather list (which is non-empty), and college B in it has defined
coordinates. -/
theorem claim_C6_weather_candidates_witness :
    select_weather_candidates connC6w = get_colleges_needing_weather connC6w 5 ∧
    collegeB.lat.isSome = true ∧ collegeB.lon.isSome = true :=
  ⟨(claim_C6_weather_candidates.2.2.1 connC6w).1 (by decide),
   claim_C6_weather_candidates.2.2.2 connC6w collegeB (by decide)⟩
